import Mathlib

/-!
Verification of the opm-material region-parameterized PVT property engine.

This file gives a shallow embedding of the parts of the repository that the
claims are about: the wet-gas correlation (`WetGasPvt.hpp`), the oil-phase
PVT multiplexer (`OilPvtMultiplexer`), and the black-oil fluid-system
finalization (`BlackOilFluidSystem.hpp`).  Scalars are embedded as exact
rationals (the source computes with `double` in real-arithmetic style; no
claim under consideration depends on floating-point rounding).  Fallible
code (OPM_THROW) is embedded with `Except`.
-/

namespace Opm

/-- Error taxonomy of the source: `NumericalIssue` (Newton non-convergence),
`std::logic_error` (configuration errors of the multiplexer) and
`std::runtime_error` (table-construction errors). -/
inductive OpmError where
  | numericalIssue (msg : String) : OpmError
  | logicError (msg : String) : OpmError
  | runtimeError (msg : String) : OpmError
deriving DecidableEq, Repr

instance {ε α : Type} [DecidableEq ε] [DecidableEq α] :
    DecidableEq (Except ε α) := fun x y =>
  match x, y with
  | .ok a, .ok b =>
    if h : a = b then isTrue (by rw [h])
    else isFalse (fun hh => h (by injection hh))
  | .error a, .error b =>
    if h : a = b then isTrue (by rw [h])
    else isFalse (fun hh => h (by injection hh))
  | .ok _, .error _ => isFalse (fun hh => Except.noConfusion hh)
  | .error _, .ok _ => isFalse (fun hh => Except.noConfusion hh)

/-- Linear interpolation between the sample points (x0, y0) and (x1, y1),
evaluated at x (also used beyond the segment, which extends the segment's
slope linearly). -/
def interp (x0 y0 x1 y1 x : ℚ) : ℚ :=
  y0 + (y1 - y0) * (x - x0) / (x1 - x0)

/-- Modelled from the spec: `Tabulated1DFunction::eval` with
`extrapolate = true` (the class `Tabulated1DFunction.hpp` is not among the
provided sources).  Per spec sections 4.1 and 8: evaluation at a stored x
returns the stored y exactly, between two adjacent samples the value is the
linear interpolation, and outside the sample range the nearest edge
segment's slope is extended linearly. -/
def eval1D : List (ℚ × ℚ) → ℚ → ℚ
  | [], _ => 0
  | [(_, y0)], _ => y0
  | [(x0, y0), (x1, y1)], x => interp x0 y0 x1 y1 x
  | (x0, y0) :: (x1, y1) :: p2 :: rest, x =>
    if x ≤ x1 then interp x0 y0 x1 y1 x
    else eval1D ((x1, y1) :: p2 :: rest) x

/-- Modelled from the spec: `UniformXTabulated2DFunction::eval` with
`extrapolate = true` (the class `UniformXTabulated2DFunction.hpp` is not
among the provided sources).  Per spec section 4.1: interpolate along the
inner (y) axis within each of the two outer columns bracketing the query x,
then interpolate the two column values linearly along x; edge segments are
extended linearly outside the stored domain. -/
def eval2D : List (ℚ × List (ℚ × ℚ)) → ℚ → ℚ → ℚ
  | [], _, _ => 0
  | [(_, col0)], _, y => eval1D col0 y
  | [(x0, col0), (x1, col1)], x, y =>
    interp x0 (eval1D col0 y) x1 (eval1D col1 y) x
  | (x0, col0) :: (x1, col1) :: c2 :: rest, x, y =>
    if x ≤ x1 then interp x0 (eval1D col0 y) x1 (eval1D col1 y) x
    else eval2D ((x1, col1) :: c2 :: rest) x y

/-- Absolute value, written as the two-sided conditional that `std::abs`
denotes (kept as an `if` so that concrete runs reduce by deciding the
sign). -/
def ratAbs (x : ℚ) : ℚ := if x < 0 then -x else x

theorem ratAbs_eq_abs (x : ℚ) : ratAbs x = |x| := by
  by_cases h : x < 0
  · simp [ratAbs, h, abs_of_neg h]
  · simp [ratAbs, h, abs_of_nonneg (le_of_not_lt h)]

/-- Per-region data owned by `WetGasPvt` (source `WetGasPvt.hpp`, private
members): reference densities, molar masses, the 2-D tables, the 1-D oil
vaporization factor table and the saturation pressure spline.  The
monotonic spline (`Spline.hpp` is not among the provided sources) is
modelled from the spec as the fitted value cache it is: a function used
solely to produce the initial guess of the saturation-pressure inversion. -/
structure WetGasRegion where
  oilReferenceDensity : ℚ
  gasReferenceDensity : ℚ
  oilMolarMass : ℚ
  gasMolarMass : ℚ
  inverseGasB : List (ℚ × List (ℚ × ℚ))
  gasMu : List (ℚ × List (ℚ × ℚ))
  inverseGasBMu : List (ℚ × List (ℚ × ℚ))
  oilVaporizationFactorTable : List (ℚ × ℚ)
  saturationPressureSpline : ℚ → ℚ

instance : Inhabited WetGasRegion :=
  ⟨⟨0, 0, 0, 0, [], [], [], [], fun _ => 0⟩⟩

/-- State of a `WetGasPvt` object: the per-region vectors plus the
cross-link to the companion oil-phase multiplexer set by `initEnd`.  The
companion's `fugacityCoefficientOil` method is embedded as a function field
(the oil-phase correlation classes are behind the `OilPvtMultiplexer`
dispatch; only their common signature matters here). -/
structure WetGasPvt where
  regions : List WetGasRegion
  oilPvtFugacityCoefficientOil : ℕ → ℚ → ℚ → ℚ

/-- Region lookup (the source indexes `std::vector`s by `regionIdx`). -/
def WetGasPvt.region (st : WetGasPvt) (regionIdx : ℕ) : WetGasRegion :=
  st.regions.getD regionIdx default

/-- Source `WetGasPvt::oilVaporizationFactor`: evaluates the 1-D
oil-vaporization-factor table at the given pressure with extrapolation. -/
def WetGasPvt.oilVaporizationFactor (st : WetGasPvt) (regionIdx : ℕ)
    (_temperature pressure : ℚ) : ℚ :=
  eval1D (st.region regionIdx).oilVaporizationFactorTable pressure

/-- Source `WetGasPvt::saturatedGasOilMassFraction`: the mass of the oil
component per volume of gas is `Rv * rho_oRef`; the mass fraction is the
ratio of that partial density to the total density. -/
def WetGasPvt.saturatedGasOilMassFraction (st : WetGasPvt) (regionIdx : ℕ)
    (temperature pressure : ℚ) : ℚ :=
  let rho_gRef := (st.region regionIdx).gasReferenceDensity
  let rho_oRef := (st.region regionIdx).oilReferenceDensity
  let Rv := st.oilVaporizationFactor regionIdx temperature pressure
  let rho_gO := Rv * rho_oRef
  rho_gO / (rho_gRef + rho_gO)

/-- Source `WetGasPvt::saturatedGasOilMoleFraction`: converts the saturated
mass fraction into a mole fraction using the components' molar masses. -/
def WetGasPvt.saturatedGasOilMoleFraction (st : WetGasPvt) (regionIdx : ℕ)
    (temperature pressure : ℚ) : ℚ :=
  let XgO := st.saturatedGasOilMassFraction regionIdx temperature pressure
  let MG := (st.region regionIdx).gasMolarMass
  let MO := (st.region regionIdx).oilMolarMass
  let avgMolarMass := MO / (1 + (1 - XgO) * (MO / MG - 1))
  XgO * avgMolarMass / MO

/-- Source `WetGasPvt::fugacityCoefficientGas`: the gas component in the
gas phase is treated as an ideal gas. -/
def WetGasPvt.fugacityCoefficientGas (_st : WetGasPvt) (_regionIdx : ℕ)
    (_temperature _pressure : ℚ) : ℚ :=
  1

/-- Source `WetGasPvt::fugacityCoefficientOil`: the companion oil
correlation's fugacity coefficient divided by the saturated gas-oil mole
fraction at the given pressure. -/
def WetGasPvt.fugacityCoefficientOil (st : WetGasPvt) (regionIdx : ℕ)
    (temperature pressure : ℚ) : ℚ :=
  let x_gOSat := st.saturatedGasOilMoleFraction regionIdx temperature pressure
  let phi_oO := st.oilPvtFugacityCoefficientOil regionIdx temperature pressure
  phi_oO / x_gOSat

/-- Source `WetGasPvt::fugacityCoefficientWater`, embedded with explicit
fuel: the body is `return 1e8*fugacityCoefficientWater(regionIdx,
temperature, pressure);` — a recursive call to the very same method with
unchanged arguments, so the embedding multiplies by 1e8 and recurses; fuel
exhaustion (`none`) represents the C++ call never returning. -/
def WetGasPvt.fugacityCoefficientWaterFuel (st : WetGasPvt) (regionIdx : ℕ)
    (temperature pressure : ℚ) : ℕ → Option ℚ
  | 0 => none
  | n + 1 =>
    (st.fugacityCoefficientWaterFuel regionIdx temperature pressure n).map
      (fun v => (1e8 : ℚ) * v)

/-- Source `WetGasPvt::viscosity`: converts the oil mass fraction to the
vaporization factor `Rv`, then combines the two 2-D table evaluations. -/
def WetGasPvt.viscosity (st : WetGasPvt) (regionIdx : ℕ)
    (_temperature pressure XgO : ℚ) : ℚ :=
  let rhooRef := (st.region regionIdx).oilReferenceDensity
  let rhogRef := (st.region regionIdx).gasReferenceDensity
  let Rv := XgO / (1 - XgO) * (rhogRef / rhooRef)
  let invBg := eval2D (st.region regionIdx).inverseGasB pressure Rv
  let invMugBg := eval2D (st.region regionIdx).inverseGasBMu pressure Rv
  invBg / invMugBg

/-- Source `WetGasPvt::formationVolumeFactor`: reciprocal of the inverse
formation-volume-factor table evaluation. -/
def WetGasPvt.formationVolumeFactor (st : WetGasPvt) (regionIdx : ℕ)
    (_temperature pressure XgO : ℚ) : ℚ :=
  let rhooRef := (st.region regionIdx).oilReferenceDensity
  let rhogRef := (st.region regionIdx).gasReferenceDensity
  let Rv := XgO / (1 - XgO) * (rhogRef / rhooRef)
  1 / eval2D (st.region regionIdx).inverseGasB pressure Rv

/-- Source `WetGasPvt::density`: reference density over the formation
volume factor, plus the partial density of the vaporized oil component. -/
def WetGasPvt.density (st : WetGasPvt) (regionIdx : ℕ)
    (temperature pressure XgO : ℚ) : ℚ :=
  let rhooRef := (st.region regionIdx).oilReferenceDensity
  let rhogRef := (st.region regionIdx).gasReferenceDensity
  let Bg := st.formationVolumeFactor regionIdx temperature pressure XgO
  let rhog := rhogRef / Bg
  let Rv := XgO / (1 - XgO) * (rhogRef / rhooRef)
  rhog + (rhogRef * Rv) / Bg

/-- Message of the `NumericalIssue` thrown by
`WetGasPvt::gasSaturationPressure` on non-convergence; the stream insertion
appends exactly the target mass fraction `XgO` (and nothing else). -/
def gasSaturationPressureErrorMsg (XgO : ℚ) : String :=
  "Could find the gas saturation pressure for X_g^O = " ++ toString XgO

/-- Newton loop of `WetGasPvt::gasSaturationPressure` (source lines
516-527), with the iteration bound as fuel.  `eps` is an argument because
the source computes it once, before the loop, from the spline seed.  A
vanishing finite-difference derivative makes the C++ iteration produce
non-finite values from which it never recovers, ending in the same
`NumericalIssue` throw after the loop; that path is embedded as the
immediate error on `fPrime = 0`. -/
def gasSaturationPressureLoop (st : WetGasPvt) (regionIdx : ℕ)
    (temperature XgO eps : ℚ) : ℕ → ℚ → Except OpmError ℚ
  | 0, _ =>
    .error (.numericalIssue (gasSaturationPressureErrorMsg XgO))
  | n + 1, pSat =>
    let f := st.saturatedGasOilMassFraction regionIdx temperature pSat - XgO
    let fPrime :=
      ((st.saturatedGasOilMassFraction regionIdx temperature (pSat + eps) - XgO) - f) / eps
    if fPrime = 0 then
      .error (.numericalIssue (gasSaturationPressureErrorMsg XgO))
    else
      let delta := f / fPrime
      let pSat2 := pSat - delta
      if ratAbs delta < ratAbs pSat2 * (1e-10 : ℚ) then .ok pSat2
      else gasSaturationPressureLoop st regionIdx temperature XgO eps n pSat2

/-- Source `WetGasPvt::gasSaturationPressure`: seeds with the saturation
pressure spline evaluated at `XgO`, fixes `eps = pSat * 1e-11` from that
seed, then runs at most 20 Newton iterations. -/
def WetGasPvt.gasSaturationPressure (st : WetGasPvt) (regionIdx : ℕ)
    (temperature XgO : ℚ) : Except OpmError ℚ :=
  let pSat := (st.region regionIdx).saturationPressureSpline XgO
  let eps := pSat * (1e-11 : ℚ)
  gasSaturationPressureLoop st regionIdx temperature XgO eps 20 pSat

/-- Generic damped-Newton recursion following the words of spec section
4.3, parameterized by the forward residual `F` and by the step-size policy
`epsOf` (the spec's `eps = p * 1e-11` evaluated at an iterate): at each
iteration the residual is `F p`, the derivative is the forward finite
difference with step `epsOf p`, the update is `p - F p / F' p`, and the
iteration stops successfully as soon as the update's magnitude drops below
`1e-10` times the updated iterate's magnitude. -/
def specNewtonLoop (F : ℚ → ℚ) (epsOf : ℚ → ℚ) (msg : String) :
    ℕ → ℚ → Except OpmError ℚ
  | 0, _ => .error (.numericalIssue msg)
  | n + 1, p =>
    let eps := epsOf p
    let f := F p
    let fPrime := (F (p + eps) - f) / eps
    if fPrime = 0 then .error (.numericalIssue msg)
    else
      let p2 := p - f / fPrime
      if ratAbs (p - p2) < ratAbs p2 * (1e-10 : ℚ) then .ok p2
      else specNewtonLoop F epsOf msg n p2

/-- Claim C1's reading of the algorithm, following the spec's words: the
finite-difference step is `eps = p * 1e-11` recomputed from the current
iterate at each iteration. -/
def gasSaturationPressureSpecPerIterEps (st : WetGasPvt) (regionIdx : ℕ)
    (temperature XgO : ℚ) : Except OpmError ℚ :=
  specNewtonLoop
    (fun p => st.saturatedGasOilMassFraction regionIdx temperature p - XgO)
    (fun p => p * (1e-11 : ℚ))
    (gasSaturationPressureErrorMsg XgO)
    20
    ((st.region regionIdx).saturationPressureSpline XgO)

/-- Amended reading of the algorithm: identical to the spec's iteration
except that the finite-difference step is computed once, from the spline
seed, and reused by every iteration (as the source does). -/
def gasSaturationPressureSpecFixedEps (st : WetGasPvt) (regionIdx : ℕ)
    (temperature XgO : ℚ) : Except OpmError ℚ :=
  specNewtonLoop
    (fun p => st.saturatedGasOilMassFraction regionIdx temperature p - XgO)
    (fun _ => (st.region regionIdx).saturationPressureSpline XgO * (1e-11 : ℚ))
    (gasSaturationPressureErrorMsg XgO)
    20
    ((st.region regionIdx).saturationPressureSpline XgO)

/-! Oil-phase PVT multiplexer (source `OilPvtMultiplexer`, provided as
`src/unnamed/part_000`). -/

/-- Source `OilPvtMultiplexer::OilPvtApproach`. -/
inductive OilPvtApproach where
  | NoOilPvt : OilPvtApproach
  | LiveOilPvt : OilPvtApproach
  | DeadOilPvt : OilPvtApproach
  | ConstantCompressibilityOilPvt : OilPvtApproach
deriving DecidableEq, Repr

/-- Message of the `std::logic_error` thrown when the multiplexer is asked
to act while no (valid) approach is selected. -/
def oilPvtUnsetMsg : String := "Not implemented: Oil PVT of this deck!"

/-- State of an `OilPvtMultiplexer`: the recorded approach tag and the kind
of the owned correlation implementation object currently allocated behind
the `void* realOilPvt_` pointer (`none` while nothing was allocated). -/
structure OilPvtMultiplexer where
  approach : OilPvtApproach
  realOilPvt : Option OilPvtApproach
deriving DecidableEq, Repr

/-- Source `OilPvtMultiplexer::OilPvtMultiplexer()`: the constructor sets
`approach_ = NoOilPvt` (and allocates nothing). -/
def OilPvtMultiplexer.construct : OilPvtMultiplexer :=
  { approach := .NoOilPvt, realOilPvt := none }

/-- Source `OilPvtMultiplexer::setApproach` (part_000 lines 205-225): each
valid tag unconditionally allocates a fresh implementation of the matching
kind and then stores the tag; `NoOilPvt` throws a `std::logic_error`.  No
case inspects the previously stored approach. -/
def OilPvtMultiplexer.setApproach (st : OilPvtMultiplexer)
    (appr : OilPvtApproach) : Except OpmError OilPvtMultiplexer :=
  match appr with
  | .ConstantCompressibilityOilPvt =>
    .ok { st with realOilPvt := some .ConstantCompressibilityOilPvt,
                  approach := .ConstantCompressibilityOilPvt }
  | .DeadOilPvt =>
    .ok { st with realOilPvt := some .DeadOilPvt, approach := .DeadOilPvt }
  | .LiveOilPvt =>
    .ok { st with realOilPvt := some .LiveOilPvt, approach := .LiveOilPvt }
  | .NoOilPvt => .error (.logicError oilPvtUnsetMsg)

/-- Source `OilPvtMultiplexer::viscosity` (part_000 lines 129-134): the
`OPM_OIL_PVT_MULTIPLEXER_CALL` macro switches on the stored tag and
forwards to the owned implementation, throwing a `std::logic_error` when
the tag is `NoOilPvt`.  The concrete implementation classes (`LiveOilPvt`,
`DeadOilPvt`, `ConstantCompressibilityOilPvt`) are not among the provided
sources, so the forwarded method is a parameter keyed by the kind. -/
def OilPvtMultiplexer.viscosityCall (st : OilPvtMultiplexer)
    (implViscosity : OilPvtApproach → ℕ → ℚ → ℚ → ℚ → ℚ)
    (regionIdx : ℕ) (temperature pressure Rs : ℚ) : Except OpmError ℚ :=
  match st.approach with
  | .NoOilPvt => .error (.logicError oilPvtUnsetMsg)
  | a => .ok (implViscosity a regionIdx temperature pressure Rs)

/-! Table construction and gap-fill of `WetGasPvt::initFromDeck` (source
`WetGasPvt.hpp` lines 106-178). -/

/-- One inner (undersaturated) PVTG sample: oil solubility `Rv`, gas
formation volume factor `Bg` and gas viscosity `mug` columns. -/
structure PvtgInnerSample where
  Rv : ℚ
  Bg : ℚ
  mug : ℚ
deriving DecidableEq, Repr

instance : Inhabited PvtgInnerSample := ⟨⟨0, 0, 0⟩⟩

/-- One outer row of a PVTG table: the gas pressure of the row and its
inner (undersaturated) samples. -/
structure PvtgRow where
  pg : ℚ
  samples : List PvtgInnerSample
deriving DecidableEq, Repr

instance : Inhabited PvtgRow := ⟨⟨0, []⟩⟩

/-- Message of the `std::runtime_error` thrown when gap-fill finds no
master row (source lines 147-150). -/
def pvtgInvalidMsg : String :=
  "PVTG tables are invalid: The last table must exhibit at least one entry for undersaturated gas!"

/-- Forward scan of the master-table search (source lines 140-145): the
first row of the given list with two or more inner samples. -/
def findMasterRow : List PvtgRow → Option (List PvtgInnerSample)
  | [] => none
  | r :: rest =>
    if r.samples.length > 1 then some r.samples else findMasterRow rest

/-- Inner samples of a row as appended to `invGasB` by the extraction loop
(source line 122): `(Rv, 1/Bg)` per sample. -/
def baseInvB (samples : List PvtgInnerSample) : List (ℚ × ℚ) :=
  samples.map fun s => (s.Rv, 1 / s.Bg)

/-- Inner samples of a row as appended to `gasMu` by the extraction loop
(source line 123): `(Rv, mug)` per sample. -/
def baseMu (samples : List PvtgInnerSample) : List (ℚ × ℚ) :=
  samples.map fun s => (s.Rv, s.mug)

/-- Points the gap-fill loop appends to a deficient row of `invGasB`
(source lines 158-175): for every master sample beyond the first, the
deficient row's own first sample scaled by the master row's ratios, stored
as `(newRv, 1/newBg)`. -/
def extendedInvB (cur master : List PvtgInnerSample) : List (ℚ × ℚ) :=
  (master.drop 1).map fun m =>
    ((cur.headD default).Rv * (m.Rv / (master.headD default).Rv),
     1 / ((cur.headD default).Bg * (m.Bg / (master.headD default).Bg)))

/-- Points the gap-fill loop appends to a deficient row of `gasMu` (source
lines 158-176): `(newRv, newMug)` per master sample beyond the first. -/
def extendedMu (cur master : List PvtgInnerSample) : List (ℚ × ℚ) :=
  (master.drop 1).map fun m =>
    ((cur.headD default).Rv * (m.Rv / (master.headD default).Rv),
     (cur.headD default).mug * (m.mug / (master.headD default).mug))

/-- The per-region table construction of `WetGasPvt::initFromDeck` (source
lines 106-178): extract `(Rv, 1/Bg)` and `(Rv, mug)` rows from the PVTG
table, then run the gap-fill pass: a row with fewer than two inner samples
is extended from the first subsequent row having at least two inner
samples; when no such row exists a `std::runtime_error` is thrown.  The
result pairs each row's final `invGasB` samples with its final `gasMu`
samples. -/
def processRows : List PvtgRow → Except OpmError (List (List (ℚ × ℚ) × List (ℚ × ℚ)))
  | [] => .ok []
  | row :: rest =>
    if row.samples.length > 1 then
      (processRows rest).map
        (fun tail => (baseInvB row.samples, baseMu row.samples) :: tail)
    else
      match findMasterRow rest with
      | none => .error (.runtimeError pvtgInvalidMsg)
      | some master =>
        (processRows rest).map
          (fun tail =>
            (baseInvB row.samples ++ extendedInvB row.samples master,
             baseMu row.samples ++ extendedMu row.samples master) :: tail)

/-! State-passing translations of the property queries.  The source
declares every query `const`; translating the method bodies into the state
monad makes the frame effect of each call explicit: each body only reads
the object's members. -/

/-- State-monad translation of `WetGasPvt::viscosity`. -/
def WetGasPvt.viscosityM (regionIdx : ℕ) (temperature pressure XgO : ℚ) :
    StateM WetGasPvt ℚ := do
  let st ← get
  pure (st.viscosity regionIdx temperature pressure XgO)

/-- State-monad translation of `WetGasPvt::density`. -/
def WetGasPvt.densityM (regionIdx : ℕ) (temperature pressure XgO : ℚ) :
    StateM WetGasPvt ℚ := do
  let st ← get
  pure (st.density regionIdx temperature pressure XgO)

/-- State-monad translation of `WetGasPvt::formationVolumeFactor`. -/
def WetGasPvt.formationVolumeFactorM (regionIdx : ℕ)
    (temperature pressure XgO : ℚ) : StateM WetGasPvt ℚ := do
  let st ← get
  pure (st.formationVolumeFactor regionIdx temperature pressure XgO)

/-- State-monad translation of `WetGasPvt::fugacityCoefficientGas`. -/
def WetGasPvt.fugacityCoefficientGasM (regionIdx : ℕ)
    (temperature pressure : ℚ) : StateM WetGasPvt ℚ := do
  let st ← get
  pure (st.fugacityCoefficientGas regionIdx temperature pressure)

/-- State-monad translation of `WetGasPvt::fugacityCoefficientOil`. -/
def WetGasPvt.fugacityCoefficientOilM (regionIdx : ℕ)
    (temperature pressure : ℚ) : StateM WetGasPvt ℚ := do
  let st ← get
  pure (st.fugacityCoefficientOil regionIdx temperature pressure)

/-- State-monad translation of `WetGasPvt::fugacityCoefficientWater`
(fuel-indexed like its pure counterpart). -/
def WetGasPvt.fugacityCoefficientWaterM (regionIdx : ℕ)
    (temperature pressure : ℚ) (fuel : ℕ) : StateM WetGasPvt (Option ℚ) := do
  let st ← get
  pure (st.fugacityCoefficientWaterFuel regionIdx temperature pressure fuel)

/-- State-monad translation of `WetGasPvt::oilVaporizationFactor`. -/
def WetGasPvt.oilVaporizationFactorM (regionIdx : ℕ)
    (temperature pressure : ℚ) : StateM WetGasPvt ℚ := do
  let st ← get
  pure (st.oilVaporizationFactor regionIdx temperature pressure)

/-- State-monad translation of `WetGasPvt::saturatedGasOilMassFraction`. -/
def WetGasPvt.saturatedGasOilMassFractionM (regionIdx : ℕ)
    (temperature pressure : ℚ) : StateM WetGasPvt ℚ := do
  let st ← get
  pure (st.saturatedGasOilMassFraction regionIdx temperature pressure)

/-- State-monad translation of `WetGasPvt::saturatedGasOilMoleFraction`. -/
def WetGasPvt.saturatedGasOilMoleFractionM (regionIdx : ℕ)
    (temperature pressure : ℚ) : StateM WetGasPvt ℚ := do
  let st ← get
  pure (st.saturatedGasOilMoleFraction regionIdx temperature pressure)

/-- State-monad translation of `WetGasPvt::gasSaturationPressure`. -/
def WetGasPvt.gasSaturationPressureM (regionIdx : ℕ)
    (temperature XgO : ℚ) : StateM WetGasPvt (Except OpmError ℚ) := do
  let st ← get
  pure (st.gasSaturationPressure regionIdx temperature XgO)

/-- State-monad translation of `OilPvtMultiplexer::viscosity`. -/
def OilPvtMultiplexer.viscosityM
    (implViscosity : OilPvtApproach → ℕ → ℚ → ℚ → ℚ → ℚ) (regionIdx : ℕ)
    (temperature pressure Rs : ℚ) :
    StateM OilPvtMultiplexer (Except OpmError ℚ) := do
  let st ← get
  pure (st.viscosityCall implViscosity regionIdx temperature pressure Rs)

/-! Black-oil fluid system finalization (source
`BlackOilFluidSystem.hpp`). -/

/-- Reference densities of one region indexed by phase, and molar masses of
one region indexed by component; the source stores both as
`std::array<Scalar,3>` with water/oil/gas phase indices 0/1/2 and
oil/water/gas component indices 0/1/2, so a named triple loses nothing. -/
structure PhaseTriple where
  water : ℚ
  oil : ℚ
  gas : ℚ
deriving DecidableEq, Repr

instance : Inhabited PhaseTriple := ⟨⟨0, 0, 0⟩⟩

/-- Source `BlackOil::surfaceTemperature` (line 676): 273.15 + 15.56 K. -/
def surfaceTemperature : ℚ := 273.15 + 15.56

/-- Source `BlackOil::surfacePressure` (line 680): 101325 Pa. -/
def surfacePressure : ℚ := 101325

/-- Modelled from the spec: the ideal-gas constant `Opm::Constants<Scalar>::R`
used by the ideal-gas law at surface conditions (`Constants.hpp` is not
among the provided sources). -/
def idealGasConstantR : ℚ := 8.314472

/-- Static state of `Opm::FluidSystems::BlackOil`: the per-region reference
densities and molar masses (both resized to the region count by
`initBegin`). -/
structure BlackOil where
  referenceDensity : List PhaseTriple
  molarMass : List PhaseTriple
deriving DecidableEq, Repr

/-- Source `BlackOil::setReferenceDensities` (lines 201-209): stores the
given densities in the region's slot. -/
def BlackOil.setReferenceDensities (st : BlackOil)
    (rhoOil rhoWater rhoGas : ℚ) (regionIdx : ℕ) : BlackOil :=
  let t : PhaseTriple := { water := rhoWater, oil := rhoOil, gas := rhoGas }
  { st with referenceDensity := st.referenceDensity.set regionIdx t }

/-- Source `BlackOil::initEnd` (lines 214-234): for every region the water
molar mass is 18e-3, the oil molar mass is 175e-3, and the gas molar mass
is obtained from the ideal-gas law at surface conditions applied to the gas
reference density of region 0 (`referenceDensity_[/*regionIdx=*/0]`). -/
def BlackOil.initEnd (st : BlackOil) : BlackOil :=
  { st with molarMass :=
      (List.range st.molarMass.length).map fun _ =>
        { water := (18e-3 : ℚ)
          oil := (175e-3 : ℚ)
          gas := idealGasConstantR * surfaceTemperature *
                   (st.referenceDensity.getD 0 default).gas / surfacePressure } }

/-! Helper lemmas about the Newton loops. -/

theorem gasSaturationPressureLoop_continue (st : WetGasPvt) (regionIdx : ℕ)
    (temperature XgO eps : ℚ) (n : ℕ) (pSat f fPrime p2 : ℚ)
    (hf : st.saturatedGasOilMassFraction regionIdx temperature pSat - XgO = f)
    (hfp : (st.saturatedGasOilMassFraction regionIdx temperature (pSat + eps) - XgO - f) / eps
            = fPrime)
    (h0 : ¬fPrime = 0)
    (hp2 : pSat - f / fPrime = p2)
    (hnc : ¬(ratAbs (f / fPrime) < ratAbs p2 * (1e-10 : ℚ))) :
    gasSaturationPressureLoop st regionIdx temperature XgO eps (n + 1) pSat =
      gasSaturationPressureLoop st regionIdx temperature XgO eps n p2 := by
  simp only [gasSaturationPressureLoop]
  rw [hf, hfp, if_neg h0, hp2, if_neg hnc]

theorem gasSaturationPressureLoop_exit (st : WetGasPvt) (regionIdx : ℕ)
    (temperature XgO eps : ℚ) (n : ℕ) (pSat f fPrime p2 : ℚ)
    (hf : st.saturatedGasOilMassFraction regionIdx temperature pSat - XgO = f)
    (hfp : (st.saturatedGasOilMassFraction regionIdx temperature (pSat + eps) - XgO - f) / eps
            = fPrime)
    (h0 : ¬fPrime = 0)
    (hp2 : pSat - f / fPrime = p2)
    (hc : ratAbs (f / fPrime) < ratAbs p2 * (1e-10 : ℚ)) :
    gasSaturationPressureLoop st regionIdx temperature XgO eps (n + 1) pSat =
      .ok p2 := by
  simp only [gasSaturationPressureLoop]
  rw [hf, hfp, if_neg h0, hp2, if_pos hc]

theorem gasSaturationPressureLoop_guard (st : WetGasPvt) (regionIdx : ℕ)
    (temperature XgO eps : ℚ) (n : ℕ) (pSat f : ℚ)
    (hf : st.saturatedGasOilMassFraction regionIdx temperature pSat - XgO = f)
    (hfp : (st.saturatedGasOilMassFraction regionIdx temperature (pSat + eps) - XgO - f) / eps
            = 0) :
    gasSaturationPressureLoop st regionIdx temperature XgO eps (n + 1) pSat =
      .error (.numericalIssue (gasSaturationPressureErrorMsg XgO)) := by
  simp only [gasSaturationPressureLoop]
  rw [hf, hfp, if_pos rfl]

theorem specNewtonLoop_continue (F : ℚ → ℚ) (epsOf : ℚ → ℚ) (msg : String)
    (n : ℕ) (p eps f fPrime p2 : ℚ)
    (heps : epsOf p = eps)
    (hf : F p = f)
    (hfp : (F (p + eps) - f) / eps = fPrime)
    (h0 : ¬fPrime = 0)
    (hp2 : p - f / fPrime = p2)
    (hnc : ¬(ratAbs (p - p2) < ratAbs p2 * (1e-10 : ℚ))) :
    specNewtonLoop F epsOf msg (n + 1) p = specNewtonLoop F epsOf msg n p2 := by
  simp only [specNewtonLoop]
  rw [heps, hf, hfp, if_neg h0, hp2, if_neg hnc]

theorem specNewtonLoop_exit (F : ℚ → ℚ) (epsOf : ℚ → ℚ) (msg : String)
    (n : ℕ) (p eps f fPrime p2 : ℚ)
    (heps : epsOf p = eps)
    (hf : F p = f)
    (hfp : (F (p + eps) - f) / eps = fPrime)
    (h0 : ¬fPrime = 0)
    (hp2 : p - f / fPrime = p2)
    (hc : ratAbs (p - p2) < ratAbs p2 * (1e-10 : ℚ)) :
    specNewtonLoop F epsOf msg (n + 1) p = .ok p2 := by
  simp only [specNewtonLoop]
  rw [heps, hf, hfp, if_neg h0, hp2, if_pos hc]

theorem gasSaturationPressureLoop_eq_specNewtonLoop (st : WetGasPvt)
    (regionIdx : ℕ) (temperature XgO eps : ℚ) :
    ∀ (n : ℕ) (p : ℚ),
      gasSaturationPressureLoop st regionIdx temperature XgO eps n p =
        specNewtonLoop
          (fun q => st.saturatedGasOilMassFraction regionIdx temperature q - XgO)
          (fun _ => eps) (gasSaturationPressureErrorMsg XgO) n p := by
  intro n
  induction n with
  | zero => intro p; rfl
  | succ n ih =>
    intro p
    simp only [gasSaturationPressureLoop, specNewtonLoop, sub_sub_cancel]
    split_ifs with h1 h2
    · rfl
    · rfl
    · exact ih _

/-! Claim C1: the Newton iteration of `WetGasPvt::gasSaturationPressure`. -/

/-- Concrete wet-gas region used to separate the two step-size policies:
collinear table samples (so both the piecewise-linear table and any
monotonicity-preserving spline through collinear data are exactly linear)
with the saturated mass-fraction curve `p / (1 + p)` and a seed off the
true root 1 by one part in a million. -/
def newtonCexRegion : WetGasRegion :=
  { oilReferenceDensity := 1
    gasReferenceDensity := 1
    oilMolarMass := 175e-3
    gasMolarMass := 20e-3
    inverseGasB := []
    gasMu := []
    inverseGasBMu := []
    oilVaporizationFactorTable := [(0, 0), (2, 2)]
    saturationPressureSpline := fun _ => 1 + 1e-6 }

/-- Wet-gas state holding `newtonCexRegion` as its only region. -/
def newtonCexSt : WetGasPvt :=
  { regions := [newtonCexRegion]
    oilPvtFugacityCoefficientOil := fun _ _ _ => 1 }

theorem newtonCexSt_fwd (p : ℚ) :
    newtonCexSt.saturatedGasOilMassFraction 0 (28871 / 100) p = p / (1 + p) := by
  simp only [WetGasPvt.saturatedGasOilMassFraction, WetGasPvt.oilVaporizationFactor,
    WetGasPvt.region, newtonCexSt, newtonCexRegion, List.getD_cons_zero, eval1D, interp]
  ring_nf

/-- C1 (counterexample): on `newtonCexSt` with target mass fraction 1/2 the
source routine and the claim's algorithm (finite-difference step
`eps = p * 1e-11` recomputed from the current iterate at every iteration)
both converge after two Newton iterations but return different pressures,
because the source computes `eps` once from the spline seed and the second
iteration therefore uses a different step. -/
theorem gasSaturationPressure_eps_cex :
    newtonCexSt.gasSaturationPressure 0 (28871 / 100) (1 / 2) ≠
      gasSaturationPressureSpecPerIterEps newtonCexSt 0 (28871 / 100) (1 / 2) := by
  have hcode : newtonCexSt.gasSaturationPressure 0 (28871 / 100) (1 / 2) =
      .ok (80000000000000000000000190002000002799999999999 /
           80000000000000000000000000000000000000000000000) := by
    show gasSaturationPressureLoop newtonCexSt 0 (28871 / 100) (1 / 2)
        ((newtonCexSt.region 0).saturationPressureSpline (1 / 2) * (1e-11 : ℚ)) 20
        ((newtonCexSt.region 0).saturationPressureSpline (1 / 2)) = _
    have hspl : (newtonCexSt.region 0).saturationPressureSpline (1 / 2) =
        1000001 / 1000000 := by
      simp only [WetGasPvt.region, newtonCexSt, newtonCexRegion, List.getD_cons_zero]
      norm_num
    rw [hspl]
    rw [show (20 : ℕ) = 19 + 1 from rfl,
      gasSaturationPressureLoop_continue newtonCexSt 0 (28871 / 100) (1 / 2)
        (1000001 / 1000000 * (1e-11 : ℚ)) 19 (1000001 / 1000000)
        (1 / 4000002)
        (100000000000000000000000 / 400000400002100003000001)
        (199999999999899998999999 / 200000000000000000000000)
        (by rw [newtonCexSt_fwd]; norm_num)
        (by rw [newtonCexSt_fwd]; norm_num)
        (by norm_num)
        (by norm_num)
        (by norm_num [ratAbs])]
    rw [show (19 : ℕ) = 18 + 1 from rfl,
      gasSaturationPressureLoop_exit newtonCexSt 0 (28871 / 100) (1 / 2)
        (1000001 / 1000000 * (1e-11 : ℚ)) 18
        (199999999999899998999999 / 200000000000000000000000)
        (-(100001000001 / 799999999999799997999998))
        (40000000000000000000000000000000000000000000000 /
         160000000000719999999999009997999997200000000001)
        (80000000000000000000000190002000002799999999999 /
         80000000000000000000000000000000000000000000000)
        (by rw [newtonCexSt_fwd]; norm_num)
        (by rw [newtonCexSt_fwd]; norm_num)
        (by norm_num)
        (by norm_num)
        (by norm_num [ratAbs])]
  have hspec : gasSaturationPressureSpecPerIterEps newtonCexSt 0 (28871 / 100) (1 / 2) =
      .ok (8000000000000000000000019000180000069999599998699997999999 /
           8000000000000000000000000000000000000000000000000000000000) := by
    show specNewtonLoop _ _ _ 20 ((newtonCexSt.region 0).saturationPressureSpline (1 / 2)) = _
    have hspl : (newtonCexSt.region 0).saturationPressureSpline (1 / 2) =
        1000001 / 1000000 := by
      simp only [WetGasPvt.region, newtonCexSt, newtonCexRegion, List.getD_cons_zero]
      norm_num
    rw [hspl]
    rw [show (20 : ℕ) = 19 + 1 from rfl,
      specNewtonLoop_continue _ _ _ 19 (1000001 / 1000000)
        (1000001 / 100000000000000000)
        (1 / 4000002)
        (100000000000000000000000 / 400000400002100003000001)
        (199999999999899998999999 / 200000000000000000000000)
        (by norm_num)
        (by rw [newtonCexSt_fwd]; norm_num)
        (by rw [newtonCexSt_fwd]; norm_num)
        (by norm_num)
        (by norm_num)
        (by norm_num [ratAbs])]
    rw [show (19 : ℕ) = 18 + 1 from rfl,
      specNewtonLoop_exit _ _ _ 18
        (199999999999899998999999 / 200000000000000000000000)
        (199999999999899998999999 / 20000000000000000000000000000000000)
        (-(100001000001 / 799999999999799997999998))
        (4000000000000000000000000000000000000000000000000000000000 /
         16000000000071999919999860999419999530000400001300002000001)
        (8000000000000000000000019000180000069999599998699997999999 /
         8000000000000000000000000000000000000000000000000000000000)
        (by norm_num)
        (by rw [newtonCexSt_fwd]; norm_num)
        (by rw [newtonCexSt_fwd]; norm_num)
        (by norm_num)
        (by norm_num)
        (by norm_num [ratAbs])]
  rw [hcode, hspec]
  intro h
  rw [Except.ok.injEq] at h
  revert h
  norm_num

/-- C1 (amended): for every region, temperature and target oil mass
fraction, `WetGasPvt::gasSaturationPressure` follows the Newton iteration
of the spec — seed from the monotonic saturation-pressure spline at `XgO`,
residual `f(p) = saturatedGasOilMassFraction(r, T, p) - XgO`, derivative by
forward finite difference, update `p - f/f'`, success as soon as
`|delta| < |p| * 1e-10`, at most 20 iterations — except that the
finite-difference step `eps = p * 1e-11` is computed once, from the spline
seed, and reused unchanged by every iteration (it is not recomputed from
the current iterate). -/
theorem gasSaturationPressure_follows_fixed_eps_newton (st : WetGasPvt)
    (regionIdx : ℕ) (temperature XgO : ℚ) :
    st.gasSaturationPressure regionIdx temperature XgO =
      gasSaturationPressureSpecFixedEps st regionIdx temperature XgO := by
  show gasSaturationPressureLoop st regionIdx temperature XgO
      ((st.region regionIdx).saturationPressureSpline XgO * (1e-11 : ℚ)) 20
      ((st.region regionIdx).saturationPressureSpline XgO) = _
  rw [gasSaturationPressureLoop_eq_specNewtonLoop]
  rfl

/-! Claim C2: the round-trip contract of the saturation-pressure
inversion. -/

/-- Concrete wet-gas region whose oil-vaporization table has a very steep
segment: `Rv` rises from 0 to 1 between the pressures 1 and 1 + 1e-30
(strictly increasing pressure column, as PVTG requires).  The saturated
mass-fraction curve therefore covers [0, 1/2] inside the tabulated pressure
range [0, 2] while being extremely steep near p = 1. -/
def steepCexRegion : WetGasRegion :=
  { oilReferenceDensity := 1
    gasReferenceDensity := 1
    oilMolarMass := 175e-3
    gasMolarMass := 20e-3
    inverseGasB := []
    gasMu := []
    inverseGasBMu := []
    oilVaporizationFactorTable :=
      [(0, 0), (1, 0),
       (1000000000000000000000000000001 / 1000000000000000000000000000000, 1),
       (2, 1)]
    saturationPressureSpline := fun _ => 1 }

/-- Wet-gas state holding `steepCexRegion` as its only region. -/
def steepCexSt : WetGasPvt :=
  { regions := [steepCexRegion]
    oilPvtFugacityCoefficientOil := fun _ _ _ => 1 }

/-- C2 (counterexample): on `steepCexSt` the target mass fraction 1/4 is
exactly the saturated mass fraction at the pressure
p* = 1 + (1/3)e-30, which lies inside the tabulated pressure range [0, 2];
`gasSaturationPressure` converges (first Newton step passes the
`|delta| < |p| * 1e-10` test) and returns 1 + 5e-12 without error, yet the
saturated mass fraction at the returned pressure is 1/2, a relative
residual of 100% — far outside the claimed 1e-10 relative tolerance. -/
theorem gasSaturationPressure_residual_cex :
    steepCexSt.saturatedGasOilMassFraction 0 (28871 / 100)
        (3000000000000000000000000000001 / 3000000000000000000000000000000) = 1 / 4 ∧
    (0 : ℚ) ≤ 3000000000000000000000000000001 / 3000000000000000000000000000000 ∧
    (3000000000000000000000000000001 / 3000000000000000000000000000000 : ℚ) ≤ 2 ∧
    steepCexSt.gasSaturationPressure 0 (28871 / 100) (1 / 4) =
      .ok (200000000001 / 200000000000) ∧
    ¬(ratAbs (steepCexSt.saturatedGasOilMassFraction 0 (28871 / 100)
          (200000000001 / 200000000000) - 1 / 4) ≤ (1e-10 : ℚ) * ratAbs (1 / 4)) := by
  refine ⟨?_, by norm_num, by norm_num, ?_, ?_⟩
  · norm_num [WetGasPvt.saturatedGasOilMassFraction, WetGasPvt.oilVaporizationFactor,
      WetGasPvt.region, steepCexSt, steepCexRegion, List.getD_cons_zero, eval1D, interp]
  · show gasSaturationPressureLoop steepCexSt 0 (28871 / 100) (1 / 4)
        ((steepCexSt.region 0).saturationPressureSpline (1 / 4) * (1e-11 : ℚ)) 20
        ((steepCexSt.region 0).saturationPressureSpline (1 / 4)) = _
    have hspl : (steepCexSt.region 0).saturationPressureSpline (1 / 4) = 1 := by
      simp only [WetGasPvt.region, steepCexSt, steepCexRegion, List.getD_cons_zero]
    rw [hspl]
    rw [show (20 : ℕ) = 19 + 1 from rfl,
      gasSaturationPressureLoop_exit steepCexSt 0 (28871 / 100) (1 / 4)
        (1 * (1e-11 : ℚ)) 19 1
        (-(1 / 4))
        (50000000000)
        (200000000001 / 200000000000)
        (by norm_num [WetGasPvt.saturatedGasOilMassFraction,
            WetGasPvt.oilVaporizationFactor, WetGasPvt.region, steepCexSt,
            steepCexRegion, List.getD_cons_zero, eval1D, interp])
        (by norm_num [WetGasPvt.saturatedGasOilMassFraction,
            WetGasPvt.oilVaporizationFactor, WetGasPvt.region, steepCexSt,
            steepCexRegion, List.getD_cons_zero, eval1D, interp])
        (by norm_num)
        (by norm_num)
        (by norm_num [ratAbs])]
  · norm_num [WetGasPvt.saturatedGasOilMassFraction, WetGasPvt.oilVaporizationFactor,
      WetGasPvt.region, steepCexSt, steepCexRegion, List.getD_cons_zero, eval1D, interp,
      ratAbs]

theorem gasSaturationPressureLoop_ok_lastStep (st : WetGasPvt) (regionIdx : ℕ)
    (temperature XgO eps : ℚ) :
    ∀ (n : ℕ) (pSat p : ℚ),
      gasSaturationPressureLoop st regionIdx temperature XgO eps n pSat = .ok p →
      ∃ pPrev f fPrime : ℚ,
        st.saturatedGasOilMassFraction regionIdx temperature pPrev - XgO = f ∧
        (st.saturatedGasOilMassFraction regionIdx temperature (pPrev + eps) - XgO - f) / eps
          = fPrime ∧
        fPrime ≠ 0 ∧ p = pPrev - f / fPrime ∧
        ratAbs (f / fPrime) < ratAbs p * (1e-10 : ℚ) := by
  intro n
  induction n with
  | zero =>
    intro pSat p h
    exact absurd h (by simp [gasSaturationPressureLoop])
  | succ n ih =>
    intro pSat p h
    simp only [gasSaturationPressureLoop] at h
    by_cases h0 :
        (st.saturatedGasOilMassFraction regionIdx temperature (pSat + eps) - XgO -
          (st.saturatedGasOilMassFraction regionIdx temperature pSat - XgO)) / eps = 0
    · rw [if_pos h0] at h
      exact absurd h (by simp)
    · rw [if_neg h0] at h
      by_cases hc :
          ratAbs ((st.saturatedGasOilMassFraction regionIdx temperature pSat - XgO) /
              ((st.saturatedGasOilMassFraction regionIdx temperature (pSat + eps) - XgO -
                (st.saturatedGasOilMassFraction regionIdx temperature pSat - XgO)) / eps)) <
            ratAbs (pSat -
              (st.saturatedGasOilMassFraction regionIdx temperature pSat - XgO) /
                ((st.saturatedGasOilMassFraction regionIdx temperature (pSat + eps) - XgO -
                  (st.saturatedGasOilMassFraction regionIdx temperature pSat - XgO)) / eps)) *
              (1e-10 : ℚ)
      · rw [if_pos hc] at h
        refine ⟨pSat, _, _, rfl, rfl, h0, ?_, ?_⟩
        · exact (Except.ok.injEq _ _ ▸ h).symm
        · rw [← Except.ok.inj h]
          exact hc
      · rw [if_neg hc] at h
        exact ih _ _ h

/-- C2 (amended): the success criterion of the inversion bounds the final
Newton step, not the residual.  Whenever
`WetGasPvt::gasSaturationPressure(r, T, XgO)` returns a pressure `p`
without error (which the 20-iteration budget does not guarantee), `p` was
produced from some iterate `pPrev` by one Newton update whose step
`f/f'` satisfies `|f/f'| < |p| * 1e-10`; the residual
`saturatedGasOilMassFraction(r, T, p) - XgO` itself is not constrained to
any relative tolerance (see the counterexample, where it is 100% of the
target). -/
theorem gasSaturationPressure_ok_lastStep (st : WetGasPvt) (regionIdx : ℕ)
    (temperature XgO p : ℚ)
    (h : st.gasSaturationPressure regionIdx temperature XgO = .ok p) :
    ∃ pPrev f fPrime : ℚ,
      st.saturatedGasOilMassFraction regionIdx temperature pPrev - XgO = f ∧
      (st.saturatedGasOilMassFraction regionIdx temperature
          (pPrev + (st.region regionIdx).saturationPressureSpline XgO * (1e-11 : ℚ)) -
         XgO - f) /
          ((st.region regionIdx).saturationPressureSpline XgO * (1e-11 : ℚ)) = fPrime ∧
      fPrime ≠ 0 ∧ p = pPrev - f / fPrime ∧
      ratAbs (f / fPrime) < ratAbs p * (1e-10 : ℚ) :=
  gasSaturationPressureLoop_ok_lastStep st regionIdx temperature XgO
    ((st.region regionIdx).saturationPressureSpline XgO * (1e-11 : ℚ)) 20
    ((st.region regionIdx).saturationPressureSpline XgO) p h

/-- C2 (witness): on `steepCexSt` the inversion at target 1/4 returns
1 + 5e-12, and the final-step characterization holds there. -/
theorem gasSaturationPressure_ok_lastStep_witness :
    steepCexSt.gasSaturationPressure 0 (28871 / 100) (1 / 4) =
      .ok (200000000001 / 200000000000) ∧
    ∃ pPrev f fPrime : ℚ,
      steepCexSt.saturatedGasOilMassFraction 0 (28871 / 100) pPrev - 1 / 4 = f ∧
      (steepCexSt.saturatedGasOilMassFraction 0 (28871 / 100)
          (pPrev + (steepCexSt.region 0).saturationPressureSpline (1 / 4) * (1e-11 : ℚ)) -
         1 / 4 - f) /
          ((steepCexSt.region 0).saturationPressureSpline (1 / 4) * (1e-11 : ℚ)) = fPrime ∧
      fPrime ≠ 0 ∧ (200000000001 / 200000000000 : ℚ) = pPrev - f / fPrime ∧
      ratAbs (f / fPrime) < ratAbs (200000000001 / 200000000000 : ℚ) * (1e-10 : ℚ) := by
  have hok : steepCexSt.gasSaturationPressure 0 (28871 / 100) (1 / 4) =
      .ok (200000000001 / 200000000000) := by
    show gasSaturationPressureLoop steepCexSt 0 (28871 / 100) (1 / 4)
        ((steepCexSt.region 0).saturationPressureSpline (1 / 4) * (1e-11 : ℚ)) 20
        ((steepCexSt.region 0).saturationPressureSpline (1 / 4)) = _
    have hspl : (steepCexSt.region 0).saturationPressureSpline (1 / 4) = 1 := by
      simp only [WetGasPvt.region, steepCexSt, steepCexRegion, List.getD_cons_zero]
    rw [hspl]
    rw [show (20 : ℕ) = 19 + 1 from rfl,
      gasSaturationPressureLoop_exit steepCexSt 0 (28871 / 100) (1 / 4)
        (1 * (1e-11 : ℚ)) 19 1
        (-(1 / 4))
        (50000000000)
        (200000000001 / 200000000000)
        (by norm_num [WetGasPvt.saturatedGasOilMassFraction,
            WetGasPvt.oilVaporizationFactor, WetGasPvt.region, steepCexSt,
            steepCexRegion, List.getD_cons_zero, eval1D, interp])
        (by norm_num [WetGasPvt.saturatedGasOilMassFraction,
            WetGasPvt.oilVaporizationFactor, WetGasPvt.region, steepCexSt,
            steepCexRegion, List.getD_cons_zero, eval1D, interp])
        (by norm_num)
        (by norm_num)
        (by norm_num [ratAbs])]
  exact ⟨hok, gasSaturationPressure_ok_lastStep steepCexSt 0 (28871 / 100) (1 / 4)
    (200000000001 / 200000000000) hok⟩

/-! Claim C3: the master-row search of the gap-fill pass. -/

theorem except_map_error_iff {α β : Type} (f : α → β) (x : Except OpmError α)
    (e : OpmError) : x.map f = .error e ↔ x = .error e := by
  cases x <;> simp [Except.map]

theorem except_map_ok_iff {α β : Type} (f : α → β) (x : Except OpmError α)
    (b : β) : x.map f = .ok b ↔ ∃ a, x = .ok a ∧ b = f a := by
  cases x <;> simp [Except.map, eq_comm]

theorem findMasterRow_none_iff (rows : List PvtgRow) :
    findMasterRow rows = none ↔ ∀ r ∈ rows, r.samples.length ≤ 1 := by
  induction rows with
  | nil => simp [findMasterRow]
  | cons r rest ih =>
    simp only [findMasterRow]
    by_cases h : r.samples.length > 1
    · rw [if_pos h]
      constructor
      · intro h'; exact absurd h' (by simp)
      · intro hall; exact absurd (hall r (by simp)) (by omega)
    · rw [if_neg h, ih]
      constructor
      · intro hall
        intro r' hr'
        rcases List.mem_cons.mp hr' with h1 | h2
        · subst h1; omega
        · exact hall r' h2
      · intro hall r' hr'
        exact hall r' (List.mem_cons_of_mem r hr')

theorem findMasterRow_some_first (rows : List PvtgRow)
    (m : List PvtgInnerSample) (h : findMasterRow rows = some m) :
    ∃ l1 mrow l2, rows = l1 ++ mrow :: l2 ∧ mrow.samples.length > 1 ∧
      (∀ r ∈ l1, r.samples.length ≤ 1) ∧ m = mrow.samples := by
  induction rows with
  | nil => exact absurd h (by simp [findMasterRow])
  | cons r rest ih =>
    simp only [findMasterRow] at h
    by_cases h1 : r.samples.length > 1
    · rw [if_pos h1] at h
      exact ⟨[], r, rest, rfl, h1, by simp, (Option.some.inj h).symm⟩
    · rw [if_neg h1] at h
      rcases ih h with ⟨l1, mrow, l2, heq, hbig, hsmall, hm⟩
      refine ⟨r :: l1, mrow, l2, by rw [heq]; rfl, hbig, ?_, hm⟩
      intro r' hr'
      rcases List.mem_cons.mp hr' with h2 | h2
      · subst h2; omega
      · exact hsmall r' h2

theorem errorCond_cons_iff (row : PvtgRow) (rest : List PvtgRow)
    (hside : 1 < row.samples.length ∨ ¬(∀ r ∈ rest, r.samples.length ≤ 1)) :
    (∃ l1 row' l2, (row :: rest : List PvtgRow) = l1 ++ row' :: l2 ∧
        row'.samples.length ≤ 1 ∧ ∀ r ∈ l2, r.samples.length ≤ 1) ↔
      (∃ l1 row' l2, rest = l1 ++ row' :: l2 ∧
        row'.samples.length ≤ 1 ∧ ∀ r ∈ l2, r.samples.length ≤ 1) := by
  constructor
  · rintro ⟨l1, row', l2, heq, hdef, hall⟩
    cases l1 with
    | nil =>
      simp only [List.nil_append, List.cons.injEq] at heq
      rcases heq with ⟨h1, h2⟩
      subst h1; subst h2
      rcases hside with hbig | hnall
      · omega
      · exact absurd hall hnall
    | cons a l1' =>
      simp only [List.cons_append, List.cons.injEq] at heq
      exact ⟨l1', row', l2, heq.2, hdef, hall⟩
  · rintro ⟨l1, row', l2, heq, hdef, hall⟩
    exact ⟨row :: l1, row', l2, by rw [heq]; rfl, hdef, hall⟩

/-- C3: the gap-fill pass of `WetGasPvt::initFromDeck` fails with the PVTG
`std::runtime_error` exactly when some outer row with fewer than two inner
samples has no subsequent row with two or more inner samples (in
particular no synthesized output list is produced then); and whenever the
forward master scan succeeds, the master it returns is the first
subsequent row with two or more inner samples (every row it skipped has
fewer than two). -/
theorem processRows_master_policy (rows : List PvtgRow) :
    (processRows rows = .error (.runtimeError pvtgInvalidMsg) ↔
      ∃ l1 row l2, rows = l1 ++ row :: l2 ∧ row.samples.length ≤ 1 ∧
        ∀ r ∈ l2, r.samples.length ≤ 1) ∧
    (∀ m : List PvtgInnerSample, findMasterRow rows = some m →
      ∃ l1 mrow l2, rows = l1 ++ mrow :: l2 ∧ mrow.samples.length > 1 ∧
        (∀ r ∈ l1, r.samples.length ≤ 1) ∧ m = mrow.samples) := by
  refine ⟨?_, findMasterRow_some_first rows⟩
  induction rows with
  | nil =>
    simp [processRows]
  | cons row rest ih =>
    simp only [processRows]
    by_cases h : row.samples.length > 1
    · rw [if_pos h, except_map_error_iff, ih, errorCond_cons_iff row rest (Or.inl h)]
    · rw [if_neg h]
      cases hm : findMasterRow rest with
      | none =>
        simp only [true_iff]
        exact ⟨[], row, rest, rfl, by omega, (findMasterRow_none_iff rest).mp hm⟩
      | some m =>
        rw [except_map_error_iff, ih, errorCond_cons_iff row rest]
        right
        intro hall
        rw [← findMasterRow_none_iff rest] at hall
        rw [hm] at hall
        exact Option.noConfusion hall

/-- C3 (witness): a single outer row with one inner sample has no
subsequent master row, so table construction fails with the PVTG runtime
error. -/
theorem processRows_master_policy_witness :
    processRows [⟨5, [⟨1, 2, 3⟩]⟩] = .error (.runtimeError pvtgInvalidMsg) :=
  (processRows_master_policy [⟨5, [⟨1, 2, 3⟩]⟩]).1.mpr
    ⟨[], ⟨5, [⟨1, 2, 3⟩]⟩, [], rfl, by simp, by simp⟩

/-! Claim C4: the synthesized points of the gap-fill pass. -/

/-- C4: when the gap-fill pass succeeds, a deficient outer row (fewer than
two inner samples) whose master scan found the inner samples `m` is
emitted as its own extracted samples followed by, for each master sample
beyond the first, the point built from the deficient row's own first
sample scaled by the master row's ratios:
`newRv = curRv0 * (mRv/mRv0)`, `newBg = curBg0 * (mBg/mBg0)`,
`newMug = curMug0 * (mMug/mMug0)`, appended as `(newRv, 1/newBg)` to the
row's inverse formation-volume-factor samples and `(newRv, newMug)` to the
row's viscosity samples. -/
theorem processRows_extends_deficient
    (rows : List PvtgRow) (res : List (List (ℚ × ℚ) × List (ℚ × ℚ)))
    (h : processRows rows = .ok res)
    (l1 : List PvtgRow) (row : PvtgRow) (l2 : List PvtgRow)
    (heq : rows = l1 ++ row :: l2) (hdef : row.samples.length ≤ 1)
    (m : List PvtgInnerSample) (hm : findMasterRow l2 = some m) :
    res.getD l1.length default =
      (baseInvB row.samples ++ (m.drop 1).map (fun s =>
          ((row.samples.headD default).Rv * (s.Rv / (m.headD default).Rv),
           1 / ((row.samples.headD default).Bg * (s.Bg / (m.headD default).Bg)))),
       baseMu row.samples ++ (m.drop 1).map (fun s =>
          ((row.samples.headD default).Rv * (s.Rv / (m.headD default).Rv),
           (row.samples.headD default).mug * (s.mug / (m.headD default).mug)))) := by
  subst heq
  induction l1 generalizing res with
  | nil =>
    simp only [List.nil_append, processRows] at h
    rw [if_neg (by omega), hm] at h
    rcases (except_map_ok_iff _ _ _).mp h with ⟨tail, htail, hres⟩
    subst hres
    simp [extendedInvB, extendedMu]
  | cons a l1' ih =>
    simp only [List.cons_append, processRows, List.append_eq] at h
    by_cases ha : a.samples.length > 1
    · rw [if_pos ha] at h
      rcases (except_map_ok_iff _ _ _).mp h with ⟨tail, htail, hres⟩
      subst hres
      simpa using ih tail htail
    · rw [if_neg ha] at h
      cases hma : findMasterRow (l1' ++ row :: l2) with
      | none => rw [hma] at h; exact absurd h (by simp)
      | some ma =>
        rw [hma] at h
        rcases (except_map_ok_iff _ _ _).mp h with ⟨tail, htail, hres⟩
        subst hres
        simpa using ih tail htail

/-- C4 (witness): a two-row table whose first row has a single sample and
whose second row is the master; the first row's output is its own sample
followed by the scaled synthesized point. -/
theorem processRows_extends_deficient_witness :
    processRows [⟨1, [⟨1, 2, 3⟩]⟩, ⟨2, [⟨4, 5, 6⟩, ⟨7, 8, 9⟩]⟩] =
      .ok [([(1, 1 / 2), (7 / 4, 5 / 16)], [(1, 3), (7 / 4, 9 / 2)]),
           ([(4, 1 / 5), (7, 1 / 8)], [(4, 6), (7, 9)])] ∧
    ([([(1, 1 / 2), (7 / 4, 5 / 16)], [(1, 3), (7 / 4, 9 / 2)]),
      ([(4, 1 / 5), (7, 1 / 8)], [(4, 6), (7, 9)])] :
        List (List (ℚ × ℚ) × List (ℚ × ℚ))).getD 0 default =
      (baseInvB [⟨1, 2, 3⟩] ++
         ([⟨4, 5, 6⟩, ⟨7, 8, 9⟩].drop 1).map (fun s : PvtgInnerSample =>
           (((1 : ℚ)) * (s.Rv / 4), 1 / ((2 : ℚ) * (s.Bg / 5)))),
       baseMu [⟨1, 2, 3⟩] ++
         ([⟨4, 5, 6⟩, ⟨7, 8, 9⟩].drop 1).map (fun s : PvtgInnerSample =>
           (((1 : ℚ)) * (s.Rv / 4), (3 : ℚ) * (s.mug / 6)))) := by
  have h : processRows [⟨1, [⟨1, 2, 3⟩]⟩, ⟨2, [⟨4, 5, 6⟩, ⟨7, 8, 9⟩]⟩] =
      .ok [([(1, 1 / 2), (7 / 4, 5 / 16)], [(1, 3), (7 / 4, 9 / 2)]),
           ([(4, 1 / 5), (7, 1 / 8)], [(4, 6), (7, 9)])] := by
    norm_num [processRows, findMasterRow, baseInvB, baseMu, extendedInvB, extendedMu,
      Except.map]
  refine ⟨h, ?_⟩
  have := processRows_extends_deficient
    [⟨1, [⟨1, 2, 3⟩]⟩, ⟨2, [⟨4, 5, 6⟩, ⟨7, 8, 9⟩]⟩]
    [([(1, 1 / 2), (7 / 4, 5 / 16)], [(1, 3), (7 / 4, 9 / 2)]),
     ([(4, 1 / 5), (7, 1 / 8)], [(4, 6), (7, 9)])] h
    [] ⟨1, [⟨1, 2, 3⟩]⟩ [⟨2, [⟨4, 5, 6⟩, ⟨7, 8, 9⟩]⟩] rfl (by simp)
    [⟨4, 5, 6⟩, ⟨7, 8, 9⟩] (by simp [findMasterRow])
  simpa using this

/-! Claim C5: the multiplexer's approach selection. -/

/-- C5 (counterexample): starting from the freshly constructed multiplexer,
`setApproach(LiveOilPvt)` selects the live-oil implementation; a second
call with the different tag `DeadOilPvt` is neither rejected nor a no-op:
it succeeds and replaces both the stored tag and the owned implementation
with the dead-oil kind. -/
theorem setApproach_second_call_cex :
    OilPvtMultiplexer.construct.setApproach .LiveOilPvt =
      .ok { approach := .LiveOilPvt, realOilPvt := some .LiveOilPvt } ∧
    OilPvtMultiplexer.setApproach
        { approach := .LiveOilPvt, realOilPvt := some .LiveOilPvt } .DeadOilPvt =
      .ok { approach := .DeadOilPvt, realOilPvt := some .DeadOilPvt } ∧
    ({ approach := .DeadOilPvt, realOilPvt := some .DeadOilPvt } :
        OilPvtMultiplexer).approach ≠
      ({ approach := .LiveOilPvt, realOilPvt := some .LiveOilPvt } :
        OilPvtMultiplexer).approach ∧
    ({ approach := .DeadOilPvt, realOilPvt := some .DeadOilPvt } :
        OilPvtMultiplexer).realOilPvt ≠
      ({ approach := .LiveOilPvt, realOilPvt := some .LiveOilPvt } :
        OilPvtMultiplexer).realOilPvt := by
  exact ⟨rfl, rfl, by decide, by decide⟩

/-- C5 (amended): `setApproach` never inspects the previously stored
approach: called with any tag other than `NoOilPvt` it succeeds from every
state — including states where an approach was already selected — and
overwrites the stored tag and the owned implementation with the requested
kind; only the tag `NoOilPvt` is rejected, with the configuration
(`std::logic_error`) error. -/
theorem setApproach_overwrites_any_state (st : OilPvtMultiplexer)
    (appr : OilPvtApproach) :
    (appr ≠ .NoOilPvt →
      st.setApproach appr = .ok { st with approach := appr, realOilPvt := some appr }) ∧
    st.setApproach .NoOilPvt = .error (.logicError oilPvtUnsetMsg) := by
  refine ⟨?_, rfl⟩
  intro h
  cases appr with
  | NoOilPvt => exact absurd rfl h
  | LiveOilPvt => rfl
  | DeadOilPvt => rfl
  | ConstantCompressibilityOilPvt => rfl

/-- C5 (witness): the amended statement applied to the constructed
multiplexer and the live-oil tag. -/
theorem setApproach_overwrites_any_state_witness :
    OilPvtMultiplexer.construct.setApproach .LiveOilPvt =
      .ok { approach := .LiveOilPvt, realOilPvt := some .LiveOilPvt } :=
  (setApproach_overwrites_any_state OilPvtMultiplexer.construct .LiveOilPvt).1
    (by decide)

/-! Claim C6: termination of the property queries. -/

/-- C6: `WetGasPvt::fugacityCoefficientWater` never produces a value: its
body returns `1e8 * fugacityCoefficientWater(regionIdx, temperature,
pressure)` — a call to itself with unchanged arguments — so the embedded
recursion yields `none` for every fuel bound, for every region,
temperature and pressure.  The C++ call recurses without bound instead of
terminating. -/
theorem fugacityCoefficientWater_never_returns (st : WetGasPvt)
    (regionIdx : ℕ) (temperature pressure : ℚ) (fuel : ℕ) :
    st.fugacityCoefficientWaterFuel regionIdx temperature pressure fuel = none := by
  induction fuel with
  | zero => rfl
  | succ n ih => simp [WetGasPvt.fugacityCoefficientWaterFuel, ih]

/-! Claim C7: the payload of the non-convergence error. -/

theorem gasSaturationPressureLoop_error_shape (st : WetGasPvt)
    (regionIdx : ℕ) (temperature XgO eps : ℚ) :
    ∀ (n : ℕ) (pSat : ℚ) (e : OpmError),
      gasSaturationPressureLoop st regionIdx temperature XgO eps n pSat = .error e →
      e = .numericalIssue (gasSaturationPressureErrorMsg XgO) := by
  intro n
  induction n with
  | zero =>
    intro pSat e h
    simpa [gasSaturationPressureLoop] using h.symm
  | succ n ih =>
    intro pSat e h
    simp only [gasSaturationPressureLoop] at h
    split_ifs at h with h0 hc
    all_goals
      first
        | exact (Except.error.inj h).symm
        | exact absurd h (fun hh => Except.noConfusion hh)
        | exact ih _ _ h

/-- C7 (amended): when the Newton inversion of
`WetGasPvt::gasSaturationPressure` fails, the error is of the distinct
`NumericalIssue` category (a different constructor from the
`std::logic_error` configuration errors and the `std::runtime_error` table
errors), and its diagnostic message is built from the target composition
`XgO` alone — the region index is not part of the payload. -/
theorem gasSaturationPressure_error_payload (st : WetGasPvt) (regionIdx : ℕ)
    (temperature XgO : ℚ) (e : OpmError)
    (h : st.gasSaturationPressure regionIdx temperature XgO = .error e) :
    e = .numericalIssue (gasSaturationPressureErrorMsg XgO) ∧
    ∀ msg : String, e ≠ .logicError msg ∧ e ≠ .runtimeError msg := by
  have he := gasSaturationPressureLoop_error_shape st regionIdx temperature XgO
    ((st.region regionIdx).saturationPressureSpline XgO * (1e-11 : ℚ)) 20
    ((st.region regionIdx).saturationPressureSpline XgO) e h
  subst he
  exact ⟨rfl, fun msg => ⟨fun hh => OpmError.noConfusion hh,
    fun hh => OpmError.noConfusion hh⟩⟩

/-- Wet-gas state with two regions of different reference densities and
different seed splines whose vaporization tables are both constant, so the
finite-difference derivative vanishes and the inversion fails in both
regions. -/
def flatCexSt : WetGasPvt :=
  { regions :=
      [{ oilReferenceDensity := 1
         gasReferenceDensity := 1
         oilMolarMass := 175e-3
         gasMolarMass := 20e-3
         inverseGasB := []
         gasMu := []
         inverseGasBMu := []
         oilVaporizationFactorTable := [(0, 1), (2, 1)]
         saturationPressureSpline := fun _ => 1 },
       { oilReferenceDensity := 2
         gasReferenceDensity := 2
         oilMolarMass := 175e-3
         gasMolarMass := 20e-3
         inverseGasB := []
         gasMu := []
         inverseGasBMu := []
         oilVaporizationFactorTable := [(0, 1), (3, 1)]
         saturationPressureSpline := fun _ => 7 }]
    oilPvtFugacityCoefficientOil := fun _ _ _ => 1 }

/-- C7 (counterexample): the two regions of `flatCexSt` differ (different
reference densities, tables and seed splines), yet the non-convergence
errors raised for target composition 1/2 in region 0 and in region 1 are
the *same* error value — the payload names only the target composition, so
it cannot carry the region index. -/
theorem gasSaturationPressure_error_no_region_cex :
    flatCexSt.gasSaturationPressure 0 (28871 / 100) (1 / 2) =
      .error (.numericalIssue (gasSaturationPressureErrorMsg (1 / 2))) ∧
    flatCexSt.gasSaturationPressure 1 (28871 / 100) (1 / 2) =
      .error (.numericalIssue (gasSaturationPressureErrorMsg (1 / 2))) ∧
    (flatCexSt.region 0).oilReferenceDensity ≠
      (flatCexSt.region 1).oilReferenceDensity := by
  refine ⟨?_, ?_, ?_⟩
  · show gasSaturationPressureLoop flatCexSt 0 (28871 / 100) (1 / 2)
        ((flatCexSt.region 0).saturationPressureSpline (1 / 2) * (1e-11 : ℚ)) 20
        ((flatCexSt.region 0).saturationPressureSpline (1 / 2)) = _
    rw [show (20 : ℕ) = 19 + 1 from rfl]
    exact gasSaturationPressureLoop_guard flatCexSt 0 (28871 / 100) (1 / 2) _ 19 _ 0
      (by norm_num [WetGasPvt.saturatedGasOilMassFraction,
        WetGasPvt.oilVaporizationFactor, WetGasPvt.region, flatCexSt,
        List.getD_cons_zero, eval1D, interp])
      (by norm_num [WetGasPvt.saturatedGasOilMassFraction,
        WetGasPvt.oilVaporizationFactor, WetGasPvt.region, flatCexSt,
        List.getD_cons_zero, eval1D, interp])
  · show gasSaturationPressureLoop flatCexSt 1 (28871 / 100) (1 / 2)
        ((flatCexSt.region 1).saturationPressureSpline (1 / 2) * (1e-11 : ℚ)) 20
        ((flatCexSt.region 1).saturationPressureSpline (1 / 2)) = _
    rw [show (20 : ℕ) = 19 + 1 from rfl]
    exact gasSaturationPressureLoop_guard flatCexSt 1 (28871 / 100) (1 / 2) _ 19 _ 0
      (by norm_num [WetGasPvt.saturatedGasOilMassFraction,
        WetGasPvt.oilVaporizationFactor, WetGasPvt.region, flatCexSt,
        List.getD_cons_zero, List.getD, eval1D, interp])
      (by norm_num [WetGasPvt.saturatedGasOilMassFraction,
        WetGasPvt.oilVaporizationFactor, WetGasPvt.region, flatCexSt,
        List.getD_cons_zero, List.getD, eval1D, interp])
  · norm_num [WetGasPvt.region, flatCexSt, List.getD_cons_zero, List.getD]

/-- C7 (witness): the amended payload description applied to the failing
inversion of region 0 of `flatCexSt`. -/
theorem gasSaturationPressure_error_payload_witness :
    .error (.numericalIssue (gasSaturationPressureErrorMsg (1 / 2))) =
      flatCexSt.gasSaturationPressure 0 (28871 / 100) (1 / 2) ∧
    ∀ msg : String,
      OpmError.numericalIssue (gasSaturationPressureErrorMsg (1 / 2)) ≠
        .logicError msg := by
  have h : flatCexSt.gasSaturationPressure 0 (28871 / 100) (1 / 2) =
      .error (.numericalIssue (gasSaturationPressureErrorMsg (1 / 2))) := by
    show gasSaturationPressureLoop flatCexSt 0 (28871 / 100) (1 / 2)
        ((flatCexSt.region 0).saturationPressureSpline (1 / 2) * (1e-11 : ℚ)) 20
        ((flatCexSt.region 0).saturationPressureSpline (1 / 2)) = _
    rw [show (20 : ℕ) = 19 + 1 from rfl]
    exact gasSaturationPressureLoop_guard flatCexSt 0 (28871 / 100) (1 / 2) _ 19 _ 0
      (by norm_num [WetGasPvt.saturatedGasOilMassFraction,
        WetGasPvt.oilVaporizationFactor, WetGasPvt.region, flatCexSt,
        List.getD_cons_zero, eval1D, interp])
      (by norm_num [WetGasPvt.saturatedGasOilMassFraction,
        WetGasPvt.oilVaporizationFactor, WetGasPvt.region, flatCexSt,
        List.getD_cons_zero, eval1D, interp])
  have hp := gasSaturationPressure_error_payload flatCexSt 0 (28871 / 100) (1 / 2)
    (.numericalIssue (gasSaturationPressureErrorMsg (1 / 2))) h
  exact ⟨h.symm, fun msg => (hp.2 msg).1⟩

/-! Claim C8: the cross-phase coupling of the oil-component fugacity
coefficient. -/

/-- C8: for every region, temperature and pressure,
`WetGasPvt::fugacityCoefficientOil` equals the companion oil multiplexer's
`fugacityCoefficientOil` at the same arguments divided by the saturated
gas-oil mole fraction at that pressure. -/
theorem fugacityCoefficientOil_couples_oil_phase (st : WetGasPvt)
    (regionIdx : ℕ) (temperature pressure : ℚ) :
    st.fugacityCoefficientOil regionIdx temperature pressure =
      st.oilPvtFugacityCoefficientOil regionIdx temperature pressure /
        st.saturatedGasOilMoleFraction regionIdx temperature pressure := rfl

/-! Claim C9: property queries do not mutate stored state. -/

/-- C9: every property query of the wet-gas correlation and of the oil
multiplexer, translated into the state monad statement by statement, leaves
the stored state — tables, splines, reference densities, molar masses and
the approach tag alike — exactly as it was: each call returns the computed
value paired with the unchanged state. -/
theorem property_queries_preserve_state (st : WetGasPvt)
    (mux : OilPvtMultiplexer)
    (implViscosity : OilPvtApproach → ℕ → ℚ → ℚ → ℚ → ℚ)
    (regionIdx : ℕ) (temperature pressure XgO Rs : ℚ) (fuel : ℕ) :
    (WetGasPvt.viscosityM regionIdx temperature pressure XgO).run st =
      (st.viscosity regionIdx temperature pressure XgO, st) ∧
    (WetGasPvt.densityM regionIdx temperature pressure XgO).run st =
      (st.density regionIdx temperature pressure XgO, st) ∧
    (WetGasPvt.formationVolumeFactorM regionIdx temperature pressure XgO).run st =
      (st.formationVolumeFactor regionIdx temperature pressure XgO, st) ∧
    (WetGasPvt.fugacityCoefficientGasM regionIdx temperature pressure).run st =
      (st.fugacityCoefficientGas regionIdx temperature pressure, st) ∧
    (WetGasPvt.fugacityCoefficientOilM regionIdx temperature pressure).run st =
      (st.fugacityCoefficientOil regionIdx temperature pressure, st) ∧
    (WetGasPvt.fugacityCoefficientWaterM regionIdx temperature pressure fuel).run st =
      (st.fugacityCoefficientWaterFuel regionIdx temperature pressure fuel, st) ∧
    (WetGasPvt.oilVaporizationFactorM regionIdx temperature pressure).run st =
      (st.oilVaporizationFactor regionIdx temperature pressure, st) ∧
    (WetGasPvt.saturatedGasOilMassFractionM regionIdx temperature pressure).run st =
      (st.saturatedGasOilMassFraction regionIdx temperature pressure, st) ∧
    (WetGasPvt.saturatedGasOilMoleFractionM regionIdx temperature pressure).run st =
      (st.saturatedGasOilMoleFraction regionIdx temperature pressure, st) ∧
    (WetGasPvt.gasSaturationPressureM regionIdx temperature XgO).run st =
      (st.gasSaturationPressure regionIdx temperature XgO, st) ∧
    (OilPvtMultiplexer.viscosityM implViscosity regionIdx temperature pressure Rs).run mux =
      (mux.viscosityCall implViscosity regionIdx temperature pressure Rs, mux) :=
  ⟨rfl, rfl, rfl, rfl, rfl, rfl, rfl, rfl, rfl, rfl, rfl⟩

/-! Claim C10: the molar masses computed by `BlackOil::initEnd`. -/

/-- Source `BlackOil::initBegin` / `resizeArrays_` (lines 150-156 and
654-658): resizes both per-region vectors to the region count. -/
def BlackOil.initBegin (numPvtRegions : ℕ) : BlackOil :=
  { referenceDensity := List.replicate numPvtRegions default
    molarMass := List.replicate numPvtRegions default }

theorem blackOil_initEnd_entry (st : BlackOil) (i : ℕ)
    (hi : i < st.molarMass.length) :
    st.initEnd.molarMass.getD i default =
      { water := (18e-3 : ℚ)
        oil := (175e-3 : ℚ)
        gas := idealGasConstantR * surfaceTemperature *
                 (st.referenceDensity.getD 0 default).gas / surfacePressure } := by
  simp only [BlackOil.initEnd, List.getD_eq_getElem?_getD, List.getElem?_map,
    List.getElem?_range hi, Option.map_some', Option.getD_some]

/-- C10: after `BlackOil::initEnd`, every region's water and oil molar
masses are the constants 18e-3 and 175e-3, and every region's gas molar
mass is computed by the ideal-gas law at surface conditions from the gas
reference density of region 0 — it is therefore identical across all
regions, even when `setReferenceDensities` stored different gas reference
densities in different regions. -/
theorem blackOil_initEnd_molar_masses (st : BlackOil) (r : ℕ)
    (h : r < st.molarMass.length) :
    (st.initEnd.molarMass.getD r default).water = (18e-3 : ℚ) ∧
    (st.initEnd.molarMass.getD r default).oil = (175e-3 : ℚ) ∧
    (st.initEnd.molarMass.getD r default).gas =
      idealGasConstantR * surfaceTemperature *
        (st.referenceDensity.getD 0 default).gas / surfacePressure ∧
    ∀ r2, r2 < st.molarMass.length →
      (st.initEnd.molarMass.getD r default).gas =
        (st.initEnd.molarMass.getD r2 default).gas := by
  rw [blackOil_initEnd_entry st r h]
  refine ⟨rfl, rfl, rfl, ?_⟩
  intro r2 h2
  rw [blackOil_initEnd_entry st r2 h2]

/-- C10 (witness): two regions configured via `setReferenceDensities` with
different gas reference densities (1 and 2); after `initEnd`, region 1's
gas molar mass is computed from region 0's density 1 (not from its own
density 2), and the two regions' gas molar masses coincide. -/
theorem blackOil_initEnd_molar_masses_witness :
    ((((BlackOil.initBegin 2).setReferenceDensities 600 1000 1 0).setReferenceDensities
        700 1100 2 1).referenceDensity.getD 1 default).gas = 2 ∧
    (((((BlackOil.initBegin 2).setReferenceDensities 600 1000 1 0).setReferenceDensities
        700 1100 2 1).initEnd.molarMass.getD 1 default).gas =
      idealGasConstantR * surfaceTemperature * 1 / surfacePressure) ∧
    (((((BlackOil.initBegin 2).setReferenceDensities 600 1000 1 0).setReferenceDensities
        700 1100 2 1).initEnd.molarMass.getD 1 default).gas =
      ((((BlackOil.initBegin 2).setReferenceDensities 600 1000 1 0).setReferenceDensities
        700 1100 2 1).initEnd.molarMass.getD 0 default).gas) := by
  have hmm := blackOil_initEnd_molar_masses
    (((BlackOil.initBegin 2).setReferenceDensities 600 1000 1 0).setReferenceDensities
      700 1100 2 1) 1 (by simp [BlackOil.initBegin, BlackOil.setReferenceDensities])
  refine ⟨by simp [BlackOil.initBegin, BlackOil.setReferenceDensities], ?_, ?_⟩
  · have := hmm.2.2.1
    simpa [BlackOil.initBegin, BlackOil.setReferenceDensities] using this
  · exact hmm.2.2.2 0 (by simp [BlackOil.initBegin, BlackOil.setReferenceDensities])

end Opm
